import Mathlib

set_option maxHeartbeats 1000000

/-!
Shallow embedding of the Persona Analysis API backend (`src/backend/main.py`),
the orchestration handler `analyze_product` together with its pure aggregation,
sampling and enrichment steps.  External collaborators (`utils.py`, which is not
part of the repository snapshot) are modelled by their returned values: an
`Except String` value stands for a Python call that either returns normally or
raises an exception carrying a message.  Python dictionaries keyed by strings
are modelled as association lists that preserve insertion order, exactly as
CPython dicts do.
-/

/-- Age field of a decision record as delivered by the decision collaborator:
either a string or an integer.  A missing key and an explicit `None` both make
`detail.get("age")` return `None`, which is `Option.none` at the use site
(`main.py` line 115). -/
inductive AgeField where
  | str (s : String)
  | int (n : Int)
deriving DecidableEq, Repr

/-- One decision record from `analyze_purchase_decisions`'s `details` list
(spec section 3, DecisionRecord).  `decision` is `Option String` because
`detail.get("decision", "")` (line 85) treats a missing key as `""` while
`p["decision"]` (line 74) raises `KeyError` on a missing key, so absence is
observable.  `persona_id` and `persona_summary` are read only through `.get`
with a string default, so they are modelled as plain strings. -/
structure DecisionRecord where
  persona_id : String
  decision : Option String
  age : Option AgeField
  persona_summary : String
deriving DecidableEq, Repr

/-- One classification from `classify_yes_personas`.  Both fields are read via
`.get(..., "")` (lines 101, 145, 146), under which a missing key is
indistinguishable from `""`, so plain strings model them faithfully. -/
structure Classification where
  persona_id : String
  assigned_archetype : String
deriving DecidableEq, Repr

/-- Result of `analyze_purchase_decisions`, per the collaborator contract
(spec section 6): a mapping with a `details` list of decision records. -/
structure AnalysisResults where
  details : List DecisionRecord
deriving DecidableEq, Repr

/-- Result of `generate_product_personas` after the `.get` defaults of
lines 46-48 have been applied: archetype labels, target age-range labels and a
target gender. -/
structure ProductPersonaData where
  personas : List String
  age_ranges : List String
  gender : String
deriving DecidableEq, Repr

/-- Python `str(age)` for the two value shapes an age field can take
(line 117).  `toString` on `Int` agrees with CPython (`str(25) = "25"`,
`str(-3) = "-3"`). -/
def ageToStr : AgeField → String
  | .str s => s
  | .int n => toString n

/-- Python `str.strip()` with no argument (line 117): remove leading and
trailing whitespace.  Implemented over the character list so that it reduces
definitionally; `Char.isWhitespace` covers the whitespace the service's data
can contain. -/
def pyStrip (s : String) : String :=
  ⟨((s.data.dropWhile Char.isWhitespace).reverse.dropWhile Char.isWhitespace).reverse⟩

/-- Python `str.lower()` (line 85), character-wise ASCII lowercasing. -/
def pyLower (s : String) : String :=
  ⟨s.data.map Char.toLower⟩

/-- Whether the first character list begins with the second one. -/
def listStarts : List Char → List Char → Bool
  | _, [] => true
  | [], _ :: _ => false
  | c :: cs, p :: ps => c == p && listStarts cs ps

/-- Python `str.startswith(p)` (line 121). -/
def pyStarts (s p : String) : Bool :=
  listStarts s.data p.data

/-- Sum of the decimal digits of a character list, `none` unless the list is a
non-empty run of ASCII digits. -/
def digitsVal : List Char → Option Nat
  | [] => none
  | l =>
    if l.all Char.isDigit then
      some (l.foldl (fun a c => a * 10 + (c.toNat - 48)) 0)
    else none

/-- Python's built-in `int(s)` on a string (line 126): strips surrounding
whitespace, accepts an optional sign followed by a non-empty digit run, and
raises `ValueError` (here `none`) otherwise.  Numeric-literal underscores and
non-ASCII digits, which CPython also accepts, are not modelled; no age string
in this development uses them. -/
def pyInt (s : String) : Option Int :=
  match (pyStrip s).data with
  | '+' :: rest => (digitsVal rest).map Int.ofNat
  | '-' :: rest => (digitsVal rest).map (fun n => -(n : Int))
  | rest => (digitsVal rest).map Int.ofNat

/-- Lowercased decision field with the `.get("decision", "")` default, as in
`detail.get("decision", "").lower()` (line 85).  `String.toLower` matches
Python `.lower()` on the ASCII data this service handles. -/
def decisionNorm (d : DecisionRecord) : String :=
  pyLower (d.decision.getD "")

/-- Whether a record's normalized decision is one of the two recognized
values counted by the buy/no-buy tally. -/
def isRecognized (d : DecisionRecord) : Bool :=
  decisionNorm d == "yes" || decisionNorm d == "no"

/-- Buy/no-buy tally of `main.py` lines 82-89: fold over the decision set,
incrementing the `yes` counter (first component) or the `no` counter (second
component); any other normalized decision leaves both counters unchanged.
The guard `if analysis_results and "details" in analysis_results` of line 83
is the identity here because the collaborator contract always supplies a
`details` list. -/
def wbpStep (acc : Nat × Nat) (detail : DecisionRecord) : Nat × Nat :=
  let decision := decisionNorm detail
  if decision = "yes" then (acc.1 + 1, acc.2)
  else if decision = "no" then (acc.1, acc.2 + 1)
  else acc

/-- The tally itself: fold the loop body over the decision set starting from
both counters at zero. -/
def wouldBuyPie (details : List DecisionRecord) : Nat × Nat :=
  details.foldl wbpStep (0, 0)

/-- Keys of a string-keyed association list, in insertion order. -/
def keysOf (m : List (String × Nat)) : List String :=
  m.map Prod.fst

/-- Python dict assignment `m[k] = v`: overwrite in place when the key exists,
append at the end otherwise. -/
def setKey (m : List (String × Nat)) (k : String) (v : Nat) : List (String × Nat) :=
  match m with
  | [] => [(k, v)]
  | (a, b) :: rest => if a = k then (a, v) :: rest else (a, b) :: setKey rest k v

/-- Python dict membership test `k in m`. -/
def hasKey (m : List (String × Nat)) (k : String) : Bool :=
  m.any (fun p => p.1 == k)

/-- Python `m[k] += 1` on a key known to be present; absent keys are left
untouched (the caller guards with `hasKey`). -/
def bumpKey (m : List (String × Nat)) (k : String) : List (String × Nat) :=
  match m with
  | [] => []
  | (a, b) :: rest => if a = k then (a, b + 1) :: rest else (a, b) :: bumpKey rest k

/-- Lines 92-96: `yes_pie_counts` starts with every product-persona label
mapped to `0`.  The `if product_persona` truthiness guard of line 93 is the
identity because folding over an empty list already yields the empty dict. -/
def initYesPie (labels : List String) : List (String × Nat) :=
  labels.foldl (fun m persona => setKey m persona 0) []

/-- Lines 92-103: count how many classified "yes" personas fall into each
declared product-persona label.  A classification whose
`assigned_archetype` is not a key of the initialized dict is skipped
(`if persona_type in yes_pie_counts`, line 102). -/
def yesPie (labels : List String) (classified : List Classification) : List (String × Nat) :=
  classified.foldl
    (fun m c => if hasKey m c.assigned_archetype then bumpKey m c.assigned_archetype else m)
    (initYesPie labels)

/-- The four fixed age buckets of lines 106-111. -/
structure AgeDist where
  r18_29 : Nat
  r30_49 : Nat
  r50_64 : Nat
  r65plus : Nat
deriving DecidableEq, Repr

/-- Increment the bucket named by the label, if any; `none` (no bucket chosen)
leaves the distribution unchanged. -/
def AgeDist.bump (d : AgeDist) : Option String → AgeDist
  | some "18-29" => { d with r18_29 := d.r18_29 + 1 }
  | some "30-49" => { d with r30_49 := d.r30_49 + 1 }
  | some "50-64" => { d with r50_64 := d.r50_64 + 1 }
  | some "65+" => { d with r65plus := d.r65plus + 1 }
  | _ => d

/-- Bucket selection of lines 119-136 on the trimmed, stringified age: exact
match of a finite range label picks that bucket; otherwise a string equal to
`"65"` or starting with `"65"` picks `65+`; otherwise an integer parse maps
through the inclusive ranges, ages below 18 and unparseable strings picking
no bucket. -/
def bucketOfAgeStr (age_str : String) : Option String :=
  if age_str = "18-29" ∨ age_str = "30-49" ∨ age_str = "50-64" then some age_str
  else if age_str = "65" ∨ pyStarts age_str "65" then some "65+"
  else
    match pyInt age_str with
    | some age_val =>
      if 18 ≤ age_val ∧ age_val ≤ 29 then some "18-29"
      else if 30 ≤ age_val ∧ age_val ≤ 49 then some "30-49"
      else if 50 ≤ age_val ∧ age_val ≤ 64 then some "50-64"
      else if 65 ≤ age_val then some "65+"
      else none
    | none => none

/-- Per-record bucket: `detail.get("age")` being `None` (line 116) skips the
record; otherwise the age is stringified, trimmed (line 117) and bucketed. -/
def codeAgeBucket : Option AgeField → Option String
  | none => none
  | some a => bucketOfAgeStr (pyStrip (ageToStr a))

/-- Age distribution of lines 106-136: fold the per-record bucket increments
over the decision set, starting from all four buckets at `0`. -/
def ageDistribution (details : List DecisionRecord) : AgeDist :=
  details.foldl (fun dist detail => dist.bump (codeAgeBucket detail.age)) ⟨0, 0, 0, 0⟩

/-- Python dict `personas_by_type[k].append(v)` with the implicit creation of
lines 148-150: a new key is appended at the end with a singleton list, an
existing key keeps its position and gets `v` appended to its group. -/
def pushGroup (m : List (String × List String)) (k v : String) : List (String × List String) :=
  match m with
  | [] => [(k, [v])]
  | (a, vs) :: rest => if a = k then (a, vs ++ [v]) :: rest else (a, vs) :: pushGroup rest k v

/-- Lines 143-150: group the classified "yes" personas' ids by their
`assigned_archetype`, in dict insertion order. -/
def groupByArchetype (classified : List Classification) : List (String × List String) :=
  classified.foldl (fun m c => pushGroup m c.assigned_archetype c.persona_id) []

/-- `random.choice(ids)` (line 156) with the ambient randomness modelled as a
stream `rand : Nat → Nat` of draws, one consumed per call: the `k`-th call on
a non-empty list picks the element at index `rand k` reduced modulo the
length.  `random.choice` on an empty list raises, but every group built by
`pushGroup` is non-empty, so the `""` default is unreachable. -/
def pyChoice (rand : Nat → Nat) (k : Nat) (ids : List String) : String :=
  ids.getD (rand k % ids.length) ""

/-- Lines 159-165: linear scan of the decision set for the first record whose
`persona_id` equals the selected id (`break` after the first hit). -/
def findRecord (details : List DecisionRecord) (pid : String) : Option DecisionRecord :=
  details.find? (fun d => d.persona_id == pid)

/-- Loop of lines 153-165 over the archetype groups, threading the index `k`
of the next randomness draw.  The guard `if len(persona_ids) >= 1` of
line 154 is always true for groups built by `pushGroup`.  A selected id with
no matching decision record contributes no entry (the archetype is skipped). -/
def selectLoop (rand : Nat → Nat) (details : List DecisionRecord) :
    Nat → List (String × List String) → List (String × String × String)
  | _, [] => []
  | k, (ty, ids) :: rest =>
    let selected_id := pyChoice rand k ids
    match findRecord details selected_id with
    | some d => (ty, selected_id, d.persona_summary) :: selectLoop rand details (k + 1) rest
    | none => selectLoop rand details (k + 1) rest

/-- Lines 138-165: `selected_consumer`, one `(archetype, persona_id,
persona_summary)` entry per archetype group whose selected id resolves to a
decision record.  The truthiness guard `if classified_yes and ...` of
line 141 is the identity because an empty classification list already
produces no groups. -/
def selectConsumers (rand : Nat → Nat) (classified : List Classification)
    (details : List DecisionRecord) : List (String × String × String) :=
  selectLoop rand details 0 (groupByArchetype classified)

/-- Lines 169-183: for each selected consumer with a non-empty
`persona_summary`, call the insight collaborator `gen` and record
`(archetype, persona_id, insights)`; empty summaries are skipped. -/
def consumerInsights (gen : String → String → String → String) (desc : String)
    (selected : List (String × String × String)) : List (String × String × String) :=
  selected.filterMap
    (fun item =>
      if item.2.2 = "" then none
      else some (item.1, item.2.1, gen desc item.1 item.2.2))

/-- A Python exception as observed by the handler's `except` clauses: either a
`fastapi.HTTPException` carrying a status code and a detail string, or any
other exception carrying its `str()` rendering. -/
inductive PyExc where
  | http (status : Nat) (detail : String)
  | other (msg : String)
deriving DecidableEq, Repr

/-- Python `str(e)` on an exception: starlette's `HTTPException.__str__`
renders `f"{status_code}: {detail}"`; for other exceptions the carried
message is returned. -/
def excStr : PyExc → String
  | .http s d => toString s ++ ": " ++ d
  | .other m => m

/-- The final ResponseModel of lines 188-197 (spec section 6), with
`consumer_insights` as an ordered association list of
`(archetype, persona_id, insights)` entries. -/
structure Response where
  would_buy_pie : Nat × Nat
  yes_pie : List (String × Nat)
  age_distribution : AgeDist
  consumer_insights : List (String × String × String)
  demographics : List String × String
deriving DecidableEq, Repr

/-- The six collaborator functions imported from `utils` (absent from the
repository snapshot; spec section 6 gives their contracts).  Each fallible
call is modelled by the value it produces for this request: `.ok` for a
normal return, `.error msg` for a raised exception with `str(e) = msg`.
The insight generator is modelled as a total function because no claim
exercises its failure. -/
structure Collaborators where
  generate_relevant_personas : Except String (List String)
  generate_product_personas : Except String ProductPersonaData
  find_top_personas : Except String (List String)
  analyze_purchase_decisions : Except String AnalysisResults
  classify_yes_personas : Except String (List Classification)
  generate_persona_insights : String → String → String → String

/-- Line 74: `[p for p in analysis_results["details"] if p["decision"] == "yes"]`.
The subscript `p["decision"]` raises `KeyError('decision')` on a record with
no decision key — `str` of that error is `'decision'` with quotes — so this
computation is fallible, unlike the defensive `.get` tally. -/
def yesPersonasOf (details : List DecisionRecord) : Except PyExc (List DecisionRecord) :=
  if details.all (fun p => p.decision.isSome)
  then .ok (details.filter (fun p => p.decision == some "yes"))
  else .error (.other "\x27decision\x27")

/-- Body of the `try` block of `analyze_product` (lines 32-199): the empty
description check, the five collaborator calls with the per-stage `try/except`
wrappers of lines 53-79, the three aggregations, the representative
selection and the insight enrichment.  Returns the ordered list of
collaborator invocations made (for reasoning about which collaborators run)
together with either the assembled response or the exception that escapes
the `try` body. -/
def analyzeInner (rand : Nat → Nat) (c : Collaborators) (product_description : String) :
    List String × Except PyExc Response :=
  if product_description = "" then
    ([], .error (.http 400 "Missing \x27product_description\x27 in request body"))
  else
    match c.generate_relevant_personas with
    | .error e => (["generate_relevant_personas"], .error (.other e))
    | .ok _personas =>
      match c.generate_product_personas with
      | .error e =>
        (["generate_relevant_personas", "generate_product_personas"], .error (.other e))
      | .ok ppd =>
        match c.find_top_personas with
        | .error e =>
          (["generate_relevant_personas", "generate_product_personas", "find_top_personas"],
           .error (.http 500 ("Error finding top personas: " ++ e)))
        | .ok _topk =>
          match c.analyze_purchase_decisions with
          | .error e =>
            (["generate_relevant_personas", "generate_product_personas", "find_top_personas",
              "analyze_purchase_decisions"],
             .error (.http 500 ("Error analyzing purchase decisions: " ++ e)))
          | .ok ar =>
            match yesPersonasOf ar.details with
            | .error ex =>
              (["generate_relevant_personas", "generate_product_personas", "find_top_personas",
                "analyze_purchase_decisions"],
               .error (.http 500 ("Error classifying yes personas: " ++ excStr ex)))
            | .ok _yes =>
              match c.classify_yes_personas with
              | .error e =>
                (["generate_relevant_personas", "generate_product_personas", "find_top_personas",
                  "analyze_purchase_decisions", "classify_yes_personas"],
                 .error (.http 500 ("Error classifying yes personas: " ++ e)))
              | .ok classified =>
                let selected := selectConsumers rand classified ar.details
                (["generate_relevant_personas", "generate_product_personas", "find_top_personas",
                  "analyze_purchase_decisions", "classify_yes_personas"] ++
                   (selected.filter (fun item => !(item.2.2 == ""))).map
                     (fun _ => "generate_persona_insights"),
                 .ok
                   { would_buy_pie := wouldBuyPie ar.details
                     yes_pie := yesPie ppd.personas classified
                     age_distribution := ageDistribution ar.details
                     consumer_insights :=
                       consumerInsights c.generate_persona_insights product_description selected
                     demographics := (ppd.age_ranges, ppd.gender) })

/-- The whole `analyze_product` handler, lines 29-203.  The blanket
`except Exception` of line 201 catches every exception escaping the `try`
body — including the handler's own `HTTPException`s, since
`fastapi.HTTPException` subclasses `Exception` — and re-raises
`HTTPException(500, "Internal server error: " + str(e))`, which FastAPI turns
into the `(status, detail)` pair observed by the client. -/
def analyze_product (rand : Nat → Nat) (c : Collaborators) (desc : String) :
    List String × Except (Nat × String) Response :=
  match analyzeInner rand c desc with
  | (tr, .ok r) => (tr, .ok r)
  | (tr, .error e) => (tr, .error (500, "Internal server error: " ++ excStr e))

/-- The three pipeline stages that carry stage-local failure isolation
(lines 53-79). -/
inductive IsoStage where
  | findSimilarPersonas
  | analyzeDecisions
  | classifyYes
deriving DecidableEq, Repr

/-- The distinguishing detail issued by each isolated stage's `except` clause
(lines 58, 70, 79). -/
def stageMarker : IsoStage → String
  | .findSimilarPersonas => "Error finding top personas: "
  | .analyzeDecisions => "Error analyzing purchase decisions: "
  | .classifyYes => "Error classifying yes personas: "

/-- Replace exactly one isolated stage's collaborator by a raising one. -/
def failAt (c : Collaborators) (s : IsoStage) (msg : String) : Collaborators :=
  match s with
  | .findSimilarPersonas =>
    ⟨c.generate_relevant_personas, c.generate_product_personas, .error msg,
     c.analyze_purchase_decisions, c.classify_yes_personas, c.generate_persona_insights⟩
  | .analyzeDecisions =>
    ⟨c.generate_relevant_personas, c.generate_product_personas, c.find_top_personas,
     .error msg, c.classify_yes_personas, c.generate_persona_insights⟩
  | .classifyYes =>
    ⟨c.generate_relevant_personas, c.generate_product_personas, c.find_top_personas,
     c.analyze_purchase_decisions, .error msg, c.generate_persona_insights⟩

/-- Bucket selection exactly as the specification words it (section 4.1): an
exact match of one of the three finite range labels picks that bucket, else a
string starting with "65" picks `65+`, else an integer parse maps through the
inclusive ranges `[18,29]`, `[30,49]`, `[50,64]`, `[65,∞)`; ages below 18 and
unparseable strings pick no bucket.  Stated for comparison against the
source-derived `bucketOfAgeStr`. -/
def specBucketStr (s : String) : Option String :=
  if s = "18-29" then some "18-29"
  else if s = "30-49" then some "30-49"
  else if s = "50-64" then some "50-64"
  else if pyStarts s "65" then some "65+"
  else
    match pyInt s with
    | some v =>
      if 18 ≤ v ∧ v ≤ 29 then some "18-29"
      else if 30 ≤ v ∧ v ≤ 49 then some "30-49"
      else if 50 ≤ v ∧ v ≤ 64 then some "50-64"
      else if 65 ≤ v then some "65+"
      else none
    | none => none

/-- Spec-side per-record bucket (spec section 4.1): stringify and trim the
age, then bucket; a `None` age is skipped without error. -/
def specAgeBucket : Option AgeField → Option String
  | none => none
  | some a => specBucketStr (pyStrip (ageToStr a))

/-- Keys of an archetype-grouping dict, in insertion order. -/
def keysG (m : List (String × List String)) : List String :=
  m.map Prod.fst

/-- The decision set of the end-to-end scenario of spec section 8: four
records, three "yes" with ages 25, 34 and 70, one "no" with age 40. -/
def scenarioDetails : List DecisionRecord :=
  [⟨"p1", some "yes", some (.int 25), "summary one"⟩,
   ⟨"p2", some "yes", some (.int 34), "summary two"⟩,
   ⟨"p3", some "yes", some (.int 70), "summary three"⟩,
   ⟨"p4", some "no", some (.int 40), "summary four"⟩]

/-- The classifier output of the end-to-end scenario: two "yes" records into
`EcoConscious`, one into `Budget`. -/
def scenarioClassified : List Classification :=
  [⟨"p1", "EcoConscious"⟩, ⟨"p2", "EcoConscious"⟩, ⟨"p3", "Budget"⟩]

/-- Mock collaborators of the end-to-end scenario of spec section 8. -/
def scenarioCollabs : Collaborators :=
  ⟨.ok ["s1", "s2", "s3", "s4", "s5"],
   .ok ⟨["EcoConscious", "Budget"], ["18-29", "30-49"], "Both"⟩,
   .ok ["t1", "t2"],
   .ok ⟨scenarioDetails⟩,
   .ok scenarioClassified,
   fun _ _ _ => "insight"⟩

/-- Collaborators exhibiting a classification whose `assigned_archetype`
(`"Zed"`) is not among the declared archetype labels (`["A"]`), with a
matching "yes" decision record carrying a non-empty summary. -/
def driftCollabs : Collaborators :=
  ⟨.ok ["s1"],
   .ok ⟨["A"], ["18-29"], "Both"⟩,
   .ok ["t1"],
   .ok ⟨[⟨"p1", some "yes", some (.int 25), "a summary"⟩]⟩,
   .ok [⟨"p1", "Zed"⟩],
   fun _ _ _ => "insight"⟩

/-! ## Supporting lemmas about the buy/no-buy tally -/

theorem wbpStep_shift (d : DecisionRecord) (acc : Nat × Nat) :
    wbpStep acc d = (acc.1 + (wbpStep (0, 0) d).1, acc.2 + (wbpStep (0, 0) d).2) := by
  by_cases h1 : decisionNorm d = "yes"
  · simp [wbpStep, h1]
  · by_cases h2 : decisionNorm d = "no"
    · simp [wbpStep, h1, h2]
    · simp [wbpStep, h1, h2]

theorem wbpStep_zero (d : DecisionRecord) :
    wbpStep (0, 0) d =
      ((if decisionNorm d = "yes" then 1 else 0), (if decisionNorm d = "no" then 1 else 0)) := by
  by_cases h1 : decisionNorm d = "yes"
  · simp [wbpStep, h1]
  · by_cases h2 : decisionNorm d = "no"
    · simp [wbpStep, h1, h2]
    · simp [wbpStep, h1, h2]

theorem foldl_wbpStep_shift (l : List DecisionRecord) :
    ∀ acc : Nat × Nat,
      l.foldl wbpStep acc = (acc.1 + (wouldBuyPie l).1, acc.2 + (wouldBuyPie l).2) := by
  induction l with
  | nil => intro acc; simp [wouldBuyPie]
  | cons x xs ihx =>
    intro acc
    simp only [wouldBuyPie, List.foldl_cons]
    rw [ihx, ihx]
    rw [wbpStep_shift x acc]
    simp [Prod.ext_iff]
    omega

theorem wouldBuyPie_eq_count (D : List DecisionRecord) :
    wouldBuyPie D =
      (D.countP (fun d => decisionNorm d == "yes"),
       D.countP (fun d => decisionNorm d == "no")) := by
  induction D with
  | nil => rfl
  | cons d t ih =>
    have h1 : wouldBuyPie (d :: t) = t.foldl wbpStep (wbpStep (0, 0) d) := rfl
    rw [h1, foldl_wbpStep_shift, ih, wbpStep_zero]
    by_cases hy : decisionNorm d = "yes"
    · simp [List.countP_cons, hy]
      omega
    · by_cases hn : decisionNorm d = "no"
      · simp [List.countP_cons, hy, hn]
        omega
      · simp [List.countP_cons, hy, hn]

theorem countP_yes_add_no (D : List DecisionRecord) :
    D.countP (fun d => decisionNorm d == "yes") + D.countP (fun d => decisionNorm d == "no") =
      D.countP isRecognized := by
  induction D with
  | nil => rfl
  | cons d t ih =>
    by_cases hy : decisionNorm d = "yes"
    · simp [List.countP_cons, hy, isRecognized]
      omega
    · by_cases hn : decisionNorm d = "no"
      · simp [List.countP_cons, hy, hn, isRecognized]
        omega
      · simp [List.countP_cons, hy, hn, isRecognized]
        exact ih

/-! ## Claim theorems: validation and the buy/no-buy tally -/

/-- C1 (code behavior at the claim's failing input): for every randomness
stream and every set of collaborators, a request with an empty
`product_description` invokes no collaborator (the invocation trace is empty)
but is answered with HTTP 500, not the claimed 400: the
`HTTPException(400, ...)` raised at line 36 is caught by the blanket
`except Exception` of line 201 — `fastapi.HTTPException` subclasses
`Exception` — and re-raised as a generic 500 whose detail wraps the original
message. -/
theorem empty_description_gives_500_and_no_collaborator_call
    (rand : Nat → Nat) (c : Collaborators) :
    analyze_product rand c "" =
      ([], .error (500,
        "Internal server error: 400: Missing \x27product_description\x27 in request body")) := by
  rfl

/-- C3: the buy/no-buy tally lowercases each record's decision and counts it
as yes or no; the two counters sum to at most the size of the decision set,
with equality exactly when every record's normalized decision is recognized
("yes" or "no"). -/
theorem wouldBuyPie_sum_le_length
    (D : List DecisionRecord) :
    (wouldBuyPie D).1 + (wouldBuyPie D).2 ≤ D.length ∧
      ((wouldBuyPie D).1 + (wouldBuyPie D).2 = D.length ↔
        ∀ d ∈ D, isRecognized d = true) := by
  rw [wouldBuyPie_eq_count]
  simp only []
  rw [countP_yes_add_no]
  constructor
  · exact List.countP_le_length _
  · exact List.countP_eq_length

/-- C6: the tally is total and defensive — it equals the tally of only the
recognized records (malformed and missing decisions contribute to neither
counter), and appending a record whose normalized decision is unrecognized
leaves both counters unchanged; no error is possible since every record value
is handled. -/
theorem wouldBuyPie_ignores_malformed (D : List DecisionRecord) (d : DecisionRecord) :
    wouldBuyPie D = wouldBuyPie (D.filter isRecognized) ∧
      (isRecognized d = false → wouldBuyPie (D ++ [d]) = wouldBuyPie D) := by
  constructor
  · rw [wouldBuyPie_eq_count, wouldBuyPie_eq_count, List.countP_filter, List.countP_filter]
    have hy : (fun a => decisionNorm a == "yes" && isRecognized a) =
        fun a => decisionNorm a == "yes" := by
      funext a
      by_cases h : decisionNorm a = "yes" <;> simp [isRecognized, h]
    have hn : (fun a => decisionNorm a == "no" && isRecognized a) =
        fun a => decisionNorm a == "no" := by
      funext a
      by_cases h : decisionNorm a = "no" <;> simp [isRecognized, h]
    rw [hy, hn]
  · intro h
    simp only [isRecognized, Bool.or_eq_false_iff, beq_eq_false_iff_ne] at h
    have hstep : wbpStep (wouldBuyPie D) d = wouldBuyPie D := by
      simp [wbpStep, h.1, h.2]
    calc wouldBuyPie (D ++ [d]) = wbpStep (wouldBuyPie D) d := by
          simp [wouldBuyPie, List.foldl_append]
      _ = wouldBuyPie D := hstep

/-- Witness for `wouldBuyPie_ignores_malformed`: a concrete decision set with
one recognized and one malformed record, and a malformed record appended. -/
theorem wouldBuyPie_ignores_malformed_witness :
    wouldBuyPie [⟨"p1", some "Yes", none, "s"⟩, ⟨"p2", some "maybe", none, "s"⟩] =
        wouldBuyPie ([⟨"p1", some "Yes", none, "s"⟩, ⟨"p2", some "maybe", none, "s"⟩].filter isRecognized) ∧
      wouldBuyPie ([⟨"p1", some "Yes", none, "s"⟩, ⟨"p2", some "maybe", none, "s"⟩] ++
          [⟨"p3", none, none, "s"⟩]) =
        wouldBuyPie [⟨"p1", some "Yes", none, "s"⟩, ⟨"p2", some "maybe", none, "s"⟩] :=
  ⟨(wouldBuyPie_ignores_malformed _ ⟨"p3", none, none, "s"⟩).1,
   (wouldBuyPie_ignores_malformed _ ⟨"p3", none, none, "s"⟩).2 (by decide)⟩

/-! ## Supporting lemmas about the archetype tally -/

theorem setKey_mem (m : List (String × Nat)) (k : String) (v : Nat) (x : String) :
    x ∈ keysOf (setKey m k v) ↔ x ∈ keysOf m ∨ x = k := by
  induction m with
  | nil => simp [setKey, keysOf]
  | cons p rest ih =>
    obtain ⟨a, b⟩ := p
    by_cases h : a = k
    · subst h
      simp [setKey, keysOf]
      tauto
    · simp [setKey, h, keysOf] at ih ⊢
      tauto

theorem setKey_nodup (m : List (String × Nat)) (k : String) (v : Nat)
    (h : (keysOf m).Nodup) : (keysOf (setKey m k v)).Nodup := by
  induction m with
  | nil => simp [setKey, keysOf]
  | cons p rest ih =>
    obtain ⟨a, b⟩ := p
    have h' : a ∉ keysOf rest ∧ (keysOf rest).Nodup :=
      List.nodup_cons.mp (show (a :: keysOf rest).Nodup from h)
    by_cases hak : a = k
    · subst hak
      have hk : keysOf (setKey ((a, b) :: rest) a v) = a :: keysOf rest := by
        simp [setKey, keysOf]
      rw [hk]
      exact h
    · have htail : (keysOf (setKey rest k v)).Nodup := ih h'.2
      have hnotin : a ∉ keysOf (setKey rest k v) := by
        rw [setKey_mem]
        rintro (hm | he)
        · exact h'.1 hm
        · exact hak he
      have hk : keysOf (setKey ((a, b) :: rest) k v) = a :: keysOf (setKey rest k v) := by
        simp [setKey, hak, keysOf]
      rw [hk]
      exact List.nodup_cons.mpr ⟨hnotin, htail⟩

theorem initYesPie_aux_mem (labels : List String) :
    ∀ (m : List (String × Nat)) (x : String),
      x ∈ keysOf (labels.foldl (fun m persona => setKey m persona 0) m) ↔
        x ∈ keysOf m ∨ x ∈ labels := by
  induction labels with
  | nil => simp
  | cons l rest ih =>
    intro m x
    simp only [List.foldl_cons]
    rw [ih]
    rw [setKey_mem]
    simp
    tauto

theorem initYesPie_mem (labels : List String) (x : String) :
    x ∈ keysOf (initYesPie labels) ↔ x ∈ labels := by
  rw [initYesPie, initYesPie_aux_mem]
  simp [keysOf]

theorem initYesPie_nodup (labels : List String) : (keysOf (initYesPie labels)).Nodup := by
  rw [initYesPie]
  have : ∀ (m : List (String × Nat)), (keysOf m).Nodup →
      (keysOf (labels.foldl (fun m persona => setKey m persona 0) m)).Nodup := by
    induction labels with
    | nil => intro m h; simpa using h
    | cons l rest ih =>
      intro m h
      simp only [List.foldl_cons]
      exact ih _ (setKey_nodup m l 0 h)
  exact this [] (by simp [keysOf])

theorem initYesPie_zero (labels : List String) :
    ∀ p ∈ initYesPie labels, p.2 = 0 := by
  rw [initYesPie]
  have : ∀ (m : List (String × Nat)), (∀ p ∈ m, p.2 = 0) →
      ∀ p ∈ labels.foldl (fun m persona => setKey m persona 0) m, p.2 = 0 := by
    induction labels with
    | nil => intro m h; simpa using h
    | cons l rest ih =>
      intro m h
      simp only [List.foldl_cons]
      refine ih _ ?_
      have hset : ∀ (mm : List (String × Nat)) (k : String), (∀ p ∈ mm, p.2 = 0) →
          ∀ p ∈ setKey mm k 0, p.2 = 0 := by
        intro mm k
        induction mm with
        | nil =>
          intro _ p hp
          simp [setKey] at hp
          rw [hp]
        | cons q rest2 ih2 =>
          intro hmm p hp
          obtain ⟨a, b⟩ := q
          by_cases hak : a = k
          · subst hak
            simp [setKey] at hp
            rcases hp with hp | hp
            · rw [hp]
            · exact hmm p (by simp [hp])
          · simp only [setKey, if_neg hak, List.mem_cons] at hp
            rcases hp with hp | hp
            · rw [hp]
              exact hmm (a, b) (by simp)
            · exact ih2 (fun q hq => hmm q (by simp [hq])) p hp
      exact hset m l h
  exact this [] (by simp)

theorem bumpKey_keysOf (m : List (String × Nat)) (k : String) :
    keysOf (bumpKey m k) = keysOf m := by
  induction m with
  | nil => rfl
  | cons p rest ih =>
    obtain ⟨a, b⟩ := p
    by_cases h : a = k
    · simp [bumpKey, h, keysOf]
    · simp [bumpKey, h, keysOf] at ih ⊢
      exact ih

theorem yesPie_keysOf (labels : List String) (cs : List Classification) :
    keysOf (yesPie labels cs) = keysOf (initYesPie labels) := by
  rw [yesPie]
  have : ∀ (cs : List Classification) (m : List (String × Nat)),
      keysOf (cs.foldl
        (fun m c => if hasKey m c.assigned_archetype then bumpKey m c.assigned_archetype else m)
        m) = keysOf m := by
    intro cs
    induction cs with
    | nil => intro m; rfl
    | cons c rest ih =>
      intro m
      simp only [List.foldl_cons]
      rw [ih]
      by_cases h : hasKey m c.assigned_archetype
      · simp [h, bumpKey_keysOf]
      · simp [h]
  exact this cs _

theorem hasKey_iff (m : List (String × Nat)) (k : String) :
    hasKey m k = true ↔ k ∈ keysOf m := by
  simp only [hasKey, keysOf, List.any_eq_true, List.mem_map, beq_iff_eq]

/-! ## Claim theorem: yes_pie keys -/

/-- C4: the keys of `yes_pie` are exactly the archetype labels supplied by
the product-persona generator (as a duplicate-free key set), every label is
present from initialization with count `0`, and a classification whose
`assigned_archetype` is not among the labels contributes to no counter. -/
theorem yesPie_keys_exact_and_drop_unknown
    (labels : List String) (cs : List Classification) (c : Classification)
    (h : c.assigned_archetype ∉ labels) :
    (∀ k, k ∈ keysOf (yesPie labels cs) ↔ k ∈ labels) ∧
      (keysOf (yesPie labels cs)).Nodup ∧
      (∀ p ∈ initYesPie labels, p.2 = 0) ∧
      yesPie labels (cs ++ [c]) = yesPie labels cs := by
  refine ⟨?_, ?_, initYesPie_zero labels, ?_⟩
  · intro k
    rw [yesPie_keysOf, initYesPie_mem]
  · rw [yesPie_keysOf]
    exact initYesPie_nodup labels
  · have hnk : hasKey (yesPie labels cs) c.assigned_archetype = false := by
      rw [← Bool.not_eq_true, hasKey_iff, yesPie_keysOf, initYesPie_mem]
      exact h
    calc yesPie labels (cs ++ [c])
        = if hasKey (yesPie labels cs) c.assigned_archetype then
            bumpKey (yesPie labels cs) c.assigned_archetype
          else yesPie labels cs := by
          simp [yesPie, List.foldl_append]
      _ = yesPie labels cs := by rw [hnk]; simp

/-- Witness for `yesPie_keys_exact_and_drop_unknown` at the concrete labels
`["EcoConscious", "Budget"]`, one in-label classification and one
unrecognized classification. -/
theorem yesPie_keys_exact_and_drop_unknown_witness :
    (∀ k, k ∈ keysOf (yesPie ["EcoConscious", "Budget"] [⟨"p1", "Budget"⟩]) ↔
        k ∈ ["EcoConscious", "Budget"]) ∧
      (keysOf (yesPie ["EcoConscious", "Budget"] [⟨"p1", "Budget"⟩])).Nodup ∧
      (∀ p ∈ initYesPie ["EcoConscious", "Budget"], p.2 = 0) ∧
      yesPie ["EcoConscious", "Budget"] ([⟨"p1", "Budget"⟩] ++ [⟨"p2", "Luxury"⟩]) =
        yesPie ["EcoConscious", "Budget"] [⟨"p1", "Budget"⟩] :=
  yesPie_keys_exact_and_drop_unknown ["EcoConscious", "Budget"] [⟨"p1", "Budget"⟩]
    ⟨"p2", "Luxury"⟩ (by decide)

/-! ## Claim theorem: age bucketing -/

theorem bucketOfAgeStr_eq_spec (s : String) : bucketOfAgeStr s = specBucketStr s := by
  unfold bucketOfAgeStr specBucketStr
  by_cases h1 : s = "18-29"
  · subst h1; decide
  · by_cases h2 : s = "30-49"
    · subst h2; decide
    · by_cases h3 : s = "50-64"
      · subst h3; decide
      · by_cases h5 : pyStarts s "65" = true
        · simp [h1, h2, h3, h5]
        · have h65 : ¬(s = "65") := by
            intro he
            rw [he] at h5
            exact h5 (by decide)
          simp [h1, h2, h3, h5, h65]

/-- C5: per-record age bucketing follows exactly the spec's two-tier policy —
the source's bucket choice coincides with the spec-worded `specAgeBucket` on
every age value (stringify, trim, exact label match first, then the "65"
string rule, then the inclusive integer ranges, skipping below-18, unparseable
and null ages), the aggregate distribution increments exactly that bucket per
record, and all nine example inputs of the claim map as stated. -/
theorem ageBucket_matches_spec :
    (∀ a : Option AgeField, codeAgeBucket a = specAgeBucket a) ∧
      (∀ (D : List DecisionRecord) (d : DecisionRecord),
        ageDistribution (D ++ [d]) = (ageDistribution D).bump (codeAgeBucket d.age)) ∧
      codeAgeBucket (some (.str "18-29")) = some "18-29" ∧
      codeAgeBucket (some (.int 29)) = some "18-29" ∧
      codeAgeBucket (some (.int 30)) = some "30-49" ∧
      codeAgeBucket (some (.int 64)) = some "50-64" ∧
      codeAgeBucket (some (.int 65)) = some "65+" ∧
      codeAgeBucket (some (.str "65 years")) = some "65+" ∧
      codeAgeBucket (some (.int 17)) = none ∧
      codeAgeBucket (some (.str "unknown")) = none ∧
      codeAgeBucket none = none := by
  refine ⟨?_, ?_, by decide, by decide, by decide, by decide, by decide, by decide,
    by decide, by decide, rfl⟩
  · intro a
    cases a with
    | none => rfl
    | some af => exact bucketOfAgeStr_eq_spec (pyStrip (ageToStr af))
  · intro D d
    simp [ageDistribution, List.foldl_append]

/-! ## Supporting lemmas about the representative sampler -/

theorem pyChoice_singleton (rand : Nat → Nat) (k : Nat) (p : String) :
    pyChoice rand k [p] = p := by
  simp [pyChoice, Nat.mod_one]

theorem pyChoice_mem (rand : Nat → Nat) (k : Nat) (ids : List String)
    (h : ids ≠ []) : pyChoice rand k ids ∈ ids := by
  have hpos : 0 < ids.length := List.length_pos.mpr h
  have hlt : rand k % ids.length < ids.length := Nat.mod_lt _ hpos
  rw [pyChoice, List.getD_eq_getElem ids "" hlt]
  exact List.getElem_mem hlt

theorem selectLoop_congr (details : List DecisionRecord)
    (gs : List (String × List String)) :
    ∀ (k : Nat) (r₁ r₂ : Nat → Nat),
      (∀ j, j < gs.length → r₁ (k + j) = r₂ (k + j)) →
      selectLoop r₁ details k gs = selectLoop r₂ details k gs := by
  induction gs with
  | nil => intro k r₁ r₂ _; rfl
  | cons g rest ih =>
    intro k r₁ r₂ hag
    obtain ⟨ty, ids⟩ := g
    have hk : r₁ k = r₂ k := by
      have := hag 0 (by simp)
      simpa using this
    have htail : selectLoop r₁ details (k + 1) rest = selectLoop r₂ details (k + 1) rest := by
      refine ih (k + 1) r₁ r₂ ?_
      intro j hj
      have hidx : k + 1 + j = k + (j + 1) := by omega
      rw [hidx]
      exact hag (j + 1) (by simp; omega)
    simp only [selectLoop, pyChoice, hk, htail]

theorem pushGroup_mem (m : List (String × List String)) (k v : String) (x : String) :
    x ∈ keysG (pushGroup m k v) ↔ x ∈ keysG m ∨ x = k := by
  induction m with
  | nil => simp [pushGroup, keysG]
  | cons p rest ih =>
    obtain ⟨a, vs⟩ := p
    by_cases h : a = k
    · subst h
      simp [pushGroup, keysG]
      tauto
    · simp [pushGroup, h, keysG] at ih ⊢
      tauto

theorem pushGroup_nodup (m : List (String × List String)) (k v : String)
    (h : (keysG m).Nodup) : (keysG (pushGroup m k v)).Nodup := by
  induction m with
  | nil => simp [pushGroup, keysG]
  | cons p rest ih =>
    obtain ⟨a, vs⟩ := p
    have h' : a ∉ keysG rest ∧ (keysG rest).Nodup :=
      List.nodup_cons.mp (show (a :: keysG rest).Nodup from h)
    by_cases hak : a = k
    · subst hak
      have hk : keysG (pushGroup ((a, vs) :: rest) a v) = a :: keysG rest := by
        simp [pushGroup, keysG]
      rw [hk]
      exact h
    · have htail : (keysG (pushGroup rest k v)).Nodup := ih h'.2
      have hnotin : a ∉ keysG (pushGroup rest k v) := by
        rw [pushGroup_mem]
        rintro (hm | he)
        · exact h'.1 hm
        · exact hak he
      have hk : keysG (pushGroup ((a, vs) :: rest) k v) = a :: keysG (pushGroup rest k v) := by
        simp [pushGroup, hak, keysG]
      rw [hk]
      exact List.nodup_cons.mpr ⟨hnotin, htail⟩

theorem groupByArchetype_nodup (cs : List Classification) :
    (keysG (groupByArchetype cs)).Nodup := by
  rw [groupByArchetype]
  have : ∀ (cs : List Classification) (m : List (String × List String)),
      (keysG m).Nodup →
      (keysG (cs.foldl (fun m c => pushGroup m c.assigned_archetype c.persona_id) m)).Nodup := by
    intro cs
    induction cs with
    | nil => intro m h; simpa using h
    | cons c rest ih =>
      intro m h
      simp only [List.foldl_cons]
      exact ih _ (pushGroup_nodup m c.assigned_archetype c.persona_id h)
  exact this cs [] (by simp [keysG])

theorem selectLoop_keys_sublist (rand : Nat → Nat) (details : List DecisionRecord)
    (gs : List (String × List String)) :
    ∀ k : Nat, ((selectLoop rand details k gs).map Prod.fst).Sublist (keysG gs) := by
  induction gs with
  | nil => intro k; simp [selectLoop, keysG]
  | cons g rest ih =>
    intro k
    obtain ⟨ty, ids⟩ := g
    have hkeys : keysG ((ty, ids) :: rest) = ty :: keysG rest := rfl
    rw [hkeys]
    show ((selectLoop rand details k ((ty, ids) :: rest)).map Prod.fst).Sublist (ty :: keysG rest)
    rw [selectLoop]
    cases hfind : findRecord details (pyChoice rand k ids) with
    | some d =>
      simp only [List.map_cons]
      exact List.Sublist.cons₂ ty (ih (k + 1))
    | none =>
      exact List.Sublist.cons ty (ih (k + 1))

/-! ## Claim theorem: representative sampling -/

/-- C7: the representative selection draws exactly one persona id from each
archetype group through the replaceable randomness stream — the chosen id is
always a member of the group, a singleton group always yields its single
member whatever the stream says, two streams that agree on the consumed draws
produce the same selection (so a deterministically seeded source makes the
selection reproducible), and the selection holds at most one entry per
archetype.  Uniformity of each draw is the contract of the underlying
`random.choice` source, which the stream model abstracts. -/
theorem representative_sampling_props :
    (∀ (rand : Nat → Nat) (k : Nat) (p : String), pyChoice rand k [p] = p) ∧
      (∀ (rand : Nat → Nat) (k : Nat) (ids : List String),
        ids ≠ [] → pyChoice rand k ids ∈ ids) ∧
      (∀ (r₁ r₂ : Nat → Nat) (cls : List Classification) (details : List DecisionRecord),
        (∀ j, j < (groupByArchetype cls).length → r₁ j = r₂ j) →
        selectConsumers r₁ cls details = selectConsumers r₂ cls details) ∧
      (∀ (rand : Nat → Nat) (cls : List Classification) (details : List DecisionRecord),
        ((selectConsumers rand cls details).map Prod.fst).Nodup) :=
  ⟨pyChoice_singleton,
   pyChoice_mem,
   fun r₁ r₂ cls details hag =>
     selectLoop_congr details (groupByArchetype cls) 0 r₁ r₂
       (fun j hj => by simpa using hag j (by simpa [keysG] using hj)),
   fun rand cls details =>
     ((selectLoop_keys_sublist rand details (groupByArchetype cls) 0).nodup
       (by simpa [keysG] using groupByArchetype_nodup cls))⟩

/-- Witness for `representative_sampling_props`: concrete instantiations of
each conjunct, discharging every hypothesis at concrete inputs. -/
theorem representative_sampling_props_witness :
    pyChoice (fun _ => 7) 0 ["p1"] = "p1" ∧
      pyChoice (fun _ => 5) 2 ["a", "b", "c"] ∈ ["a", "b", "c"] ∧
      selectConsumers (fun j => j * 0) [⟨"p1", "A"⟩] [⟨"p1", some "yes", none, "s"⟩] =
        selectConsumers (fun _ => 0) [⟨"p1", "A"⟩] [⟨"p1", some "yes", none, "s"⟩] ∧
      ((selectConsumers (fun _ => 3) [⟨"p1", "A"⟩, ⟨"p2", "B"⟩]
          [⟨"p1", some "yes", none, "s"⟩]).map Prod.fst).Nodup :=
  ⟨representative_sampling_props.1 (fun _ => 7) 0 "p1",
   representative_sampling_props.2.1 (fun _ => 5) 2 ["a", "b", "c"] (by decide),
   representative_sampling_props.2.2.1 (fun j => j * 0) (fun _ => 0) [⟨"p1", "A"⟩]
     [⟨"p1", some "yes", none, "s"⟩] (fun j _ => by simp),
   representative_sampling_props.2.2.2 (fun _ => 3) [⟨"p1", "A"⟩, ⟨"p2", "B"⟩]
     [⟨"p1", some "yes", none, "s"⟩]⟩

/-! ## Claim theorem: isolated stage failures -/

theorem internal_error_http500 (s : String) :
    "Internal server error: " ++ excStr (.http 500 s) = "Internal server error: 500: " ++ s := by
  cases s with
  | mk data =>
    show String.mk ("Internal server error: ".data ++ (("500" ++ ": ").data ++ data)) =
      String.mk ("Internal server error: 500: ".data ++ data)
    rw [← List.append_assoc]
    rfl

/-- C2: when exactly one of the three isolated stages raises (every other
collaborator succeeding and the decision records being well formed), the
pipeline aborts with a 500 whose detail embeds that stage's distinguishing
marker — the three markers are pairwise distinct, so the detail identifies
the failing stage — and no response object is produced (the result is an
error, not a partial `Response`).  The detail is additionally wrapped in
`"Internal server error: 500: "` because the blanket `except Exception` of
line 201 re-wraps the stage-specific `HTTPException(500, ...)`. -/
theorem isolated_stage_failure_identified
    (rand : Nat → Nat) (c : Collaborators) (desc msg : String) (stage : IsoStage)
    (ppd : ProductPersonaData) (ar : AnalysisResults)
    (hdesc : desc ≠ "")
    (hg : ∃ x, c.generate_relevant_personas = Except.ok x)
    (hp : c.generate_product_personas = Except.ok ppd)
    (ht : ∃ x, c.find_top_personas = Except.ok x)
    (ha : c.analyze_purchase_decisions = Except.ok ar)
    (hdec : ar.details.all (fun p => p.decision.isSome) = true) :
    (analyze_product rand (failAt c stage msg) desc).2 =
      .error (500, "Internal server error: 500: " ++ (stageMarker stage ++ msg)) ∧
      (∀ s₁ s₂ : IsoStage, stageMarker s₁ = stageMarker s₂ → s₁ = s₂) := by
  constructor
  · obtain ⟨xg, hg⟩ := hg
    obtain ⟨xt, ht⟩ := ht
    cases stage with
    | findSimilarPersonas =>
      simp [analyze_product, analyzeInner, failAt, hg, hp, hdesc, stageMarker,
        internal_error_http500]
    | analyzeDecisions =>
      simp [analyze_product, analyzeInner, failAt, hg, hp, ht, hdesc, stageMarker,
        internal_error_http500]
    | classifyYes =>
      simp [analyze_product, analyzeInner, failAt, yesPersonasOf, hg, hp, ht, ha, hdec,
        hdesc, stageMarker, internal_error_http500]
  · intro s₁ s₂ h
    cases s₁ <;> cases s₂ <;> first
      | rfl
      | exact absurd h (by decide)

/-- Witness for `isolated_stage_failure_identified`: the similarity-lookup
stage raising `"boom"` against otherwise healthy mock collaborators. -/
theorem isolated_stage_failure_identified_witness :
    (analyze_product (fun _ => 0) (failAt scenarioCollabs .findSimilarPersonas "boom") "x").2 =
      .error (500, "Internal server error: 500: " ++
        (stageMarker .findSimilarPersonas ++ "boom")) :=
  (isolated_stage_failure_identified (fun _ => 0) scenarioCollabs "x" "boom"
    .findSimilarPersonas ⟨["EcoConscious", "Budget"], ["18-29", "30-49"], "Both"⟩
    ⟨scenarioDetails⟩ (by decide) ⟨_, rfl⟩ rfl ⟨_, rfl⟩ rfl (by decide)).1

/-! ## Supporting lemma: shape of a successful pipeline run -/

theorem analyze_product_ok_shape
    (rand : Nat → Nat) (c : Collaborators) (desc : String)
    (ppd : ProductPersonaData) (ar : AnalysisResults) (cls : List Classification)
    (hdesc : desc ≠ "")
    (hg : ∃ x, c.generate_relevant_personas = Except.ok x)
    (hp : c.generate_product_personas = Except.ok ppd)
    (ht : ∃ x, c.find_top_personas = Except.ok x)
    (ha : c.analyze_purchase_decisions = Except.ok ar)
    (hdec : ar.details.all (fun p => p.decision.isSome) = true)
    (hc : c.classify_yes_personas = Except.ok cls) :
    (analyze_product rand c desc).2 =
      .ok { would_buy_pie := wouldBuyPie ar.details
            yes_pie := yesPie ppd.personas cls
            age_distribution := ageDistribution ar.details
            consumer_insights := consumerInsights c.generate_persona_insights desc
              (selectConsumers rand cls ar.details)
            demographics := (ppd.age_ranges, ppd.gender) } := by
  obtain ⟨xg, hg⟩ := hg
  obtain ⟨xt, ht⟩ := ht
  simp [analyze_product, analyzeInner, yesPersonasOf, hg, hp, ht, ha, hdec, hc, hdesc]

/-! ## Claim theorems: end-to-end scenario, purity, classifier drift -/

theorem scenario_insights (rand : Nat → Nat) :
    consumerInsights scenarioCollabs.generate_persona_insights "eco-friendly water bottle"
        (selectConsumers rand scenarioClassified scenarioDetails) =
      [("EcoConscious", (if rand 0 % 2 = 0 then "p1" else "p2"), "insight"),
       ("Budget", "p3", "insight")] := by
  have hg : groupByArchetype scenarioClassified =
      [("EcoConscious", ["p1", "p2"]), ("Budget", ["p3"])] := by decide
  have hf1 : findRecord scenarioDetails "p1" =
      some ⟨"p1", some "yes", some (.int 25), "summary one"⟩ := by decide
  have hf2 : findRecord scenarioDetails "p2" =
      some ⟨"p2", some "yes", some (.int 34), "summary two"⟩ := by decide
  have hf3 : findRecord scenarioDetails "p3" =
      some ⟨"p3", some "yes", some (.int 70), "summary three"⟩ := by decide
  unfold selectConsumers
  rw [hg]
  rcases Nat.mod_two_eq_zero_or_one (rand 0) with h | h
  · have e0 : pyChoice rand 0 ["p1", "p2"] = "p1" := by
      simp [pyChoice, h]
    simp only [selectLoop, e0, pyChoice_singleton, hf1, hf3, h]
    decide
  · have e0 : pyChoice rand 0 ["p1", "p2"] = "p2" := by
      simp [pyChoice, h]
    simp only [selectLoop, e0, pyChoice_singleton, hf2, hf3, h]
    decide

/-- C8 (corrected): the end-to-end scenario with mocked collaborators — for
every choice made by the randomness source the request succeeds with
`would_buy_pie = {yes: 3, no: 1}`, `yes_pie = {EcoConscious: 2, Budget: 1}`,
`age_distribution = {18-29: 1, 30-49: 2, 50-64: 0, 65+: 1}` (ages 34 and 40
both fall in the 30-49 bucket, so its count is 2, not the 1 the claim
states), and `consumer_insights` holding exactly the two keys
`EcoConscious` and `Budget`, one persona_id/insights pair each. -/
theorem end_to_end_scenario_amended (rand : Nat → Nat) :
    ∃ resp : Response,
      (analyze_product rand scenarioCollabs "eco-friendly water bottle").2 =
          Except.ok resp ∧
        resp.would_buy_pie = (3, 1) ∧
        resp.yes_pie = [("EcoConscious", 2), ("Budget", 1)] ∧
        resp.age_distribution = ⟨1, 2, 0, 1⟩ ∧
        resp.consumer_insights.map Prod.fst = ["EcoConscious", "Budget"] ∧
        resp.consumer_insights.length = 2 := by
  refine ⟨_, analyze_product_ok_shape rand scenarioCollabs "eco-friendly water bottle"
    ⟨["EcoConscious", "Budget"], ["18-29", "30-49"], "Both"⟩ ⟨scenarioDetails⟩
    scenarioClassified (by decide) ⟨_, rfl⟩ rfl ⟨_, rfl⟩ rfl (by decide) rfl,
    ?_, ?_, ?_, ?_, ?_⟩
  · show wouldBuyPie scenarioDetails = (3, 1)
    decide
  · show yesPie ["EcoConscious", "Budget"] scenarioClassified =
      [("EcoConscious", 2), ("Budget", 1)]
    decide
  · show ageDistribution scenarioDetails = ⟨1, 2, 0, 1⟩
    decide
  · show (consumerInsights scenarioCollabs.generate_persona_insights
        "eco-friendly water bottle"
        (selectConsumers rand scenarioClassified scenarioDetails)).map Prod.fst =
      ["EcoConscious", "Budget"]
    rw [scenario_insights]
    rfl
  · show (consumerInsights scenarioCollabs.generate_persona_insights
        "eco-friendly water bottle"
        (selectConsumers rand scenarioClassified scenarioDetails)).length = 2
    rw [scenario_insights]
    rfl

/-- C8 counterexample: at the claim's own scenario (with the zero randomness
stream), the computed `age_distribution` has `30-49 = 2` — the records aged
34 and 40 both land there — so it differs from the claimed
`{18-29: 1, 30-49: 1, 50-64: 0, 65+: 1}`. -/
theorem end_to_end_scenario_claim_age_refuted :
    ((analyze_product (fun _ => 0) scenarioCollabs "eco-friendly water bottle").2.toOption.map
        Response.age_distribution) = some ⟨1, 2, 0, 1⟩ ∧
      some (⟨1, 2, 0, 1⟩ : AgeDist) ≠ some ⟨1, 1, 0, 1⟩ := by
  constructor
  · decide
  · decide

/-- C9: the three distributions are a pure function of the decision set (plus
the declared labels and classifications) — two pipeline runs over the same
collaborator outputs, under any randomness streams, any descriptions and any
insight generators, produce identical `would_buy_pie`, `yes_pie` and
`age_distribution`; in this embedding all inputs are values, so the decision
set is never mutated. -/
theorem aggregation_pure_function_of_decision_set
    (r1f r2f : Nat → Nat) (c₁ c₂ : Collaborators) (d₁ d₂ : String)
    (ppd : ProductPersonaData) (ar : AnalysisResults) (cls : List Classification)
    (resp₁ resp₂ : Response)
    (hd₁ : d₁ ≠ "") (hd₂ : d₂ ≠ "")
    (hg₁ : ∃ x, c₁.generate_relevant_personas = Except.ok x)
    (hg₂ : ∃ x, c₂.generate_relevant_personas = Except.ok x)
    (hp₁ : c₁.generate_product_personas = Except.ok ppd)
    (hp₂ : c₂.generate_product_personas = Except.ok ppd)
    (ht₁ : ∃ x, c₁.find_top_personas = Except.ok x)
    (ht₂ : ∃ x, c₂.find_top_personas = Except.ok x)
    (ha₁ : c₁.analyze_purchase_decisions = Except.ok ar)
    (ha₂ : c₂.analyze_purchase_decisions = Except.ok ar)
    (hdec : ar.details.all (fun p => p.decision.isSome) = true)
    (hc₁ : c₁.classify_yes_personas = Except.ok cls)
    (hc₂ : c₂.classify_yes_personas = Except.ok cls)
    (h₁ : (analyze_product r1f c₁ d₁).2 = Except.ok resp₁)
    (h₂ : (analyze_product r2f c₂ d₂).2 = Except.ok resp₂) :
    resp₁.would_buy_pie = resp₂.would_buy_pie ∧
      resp₁.yes_pie = resp₂.yes_pie ∧
      resp₁.age_distribution = resp₂.age_distribution := by
  have s₁ := analyze_product_ok_shape r1f c₁ d₁ ppd ar cls hd₁ hg₁ hp₁ ht₁ ha₁ hdec hc₁
  have s₂ := analyze_product_ok_shape r2f c₂ d₂ ppd ar cls hd₂ hg₂ hp₂ ht₂ ha₂ hdec hc₂
  rw [h₁] at s₁
  rw [h₂] at s₂
  have e₁ := Except.ok.inj s₁
  have e₂ := Except.ok.inj s₂
  rw [e₁, e₂]
  exact ⟨rfl, rfl, rfl⟩

/-- Witness for `aggregation_pure_function_of_decision_set`: the scenario
collaborators run under two different randomness streams; the representatives
differ (`p1` versus `p2` for EcoConscious) but the three distributions
coincide. -/
theorem aggregation_pure_function_of_decision_set_witness :
    (⟨(3, 1), [("EcoConscious", 2), ("Budget", 1)], ⟨1, 2, 0, 1⟩,
        [("EcoConscious", "p1", "insight"), ("Budget", "p3", "insight")],
        (["18-29", "30-49"], "Both")⟩ : Response).would_buy_pie =
      (⟨(3, 1), [("EcoConscious", 2), ("Budget", 1)], ⟨1, 2, 0, 1⟩,
        [("EcoConscious", "p2", "insight"), ("Budget", "p3", "insight")],
        (["18-29", "30-49"], "Both")⟩ : Response).would_buy_pie ∧
    (⟨(3, 1), [("EcoConscious", 2), ("Budget", 1)], ⟨1, 2, 0, 1⟩,
        [("EcoConscious", "p1", "insight"), ("Budget", "p3", "insight")],
        (["18-29", "30-49"], "Both")⟩ : Response).yes_pie =
      (⟨(3, 1), [("EcoConscious", 2), ("Budget", 1)], ⟨1, 2, 0, 1⟩,
        [("EcoConscious", "p2", "insight"), ("Budget", "p3", "insight")],
        (["18-29", "30-49"], "Both")⟩ : Response).yes_pie ∧
    (⟨(3, 1), [("EcoConscious", 2), ("Budget", 1)], ⟨1, 2, 0, 1⟩,
        [("EcoConscious", "p1", "insight"), ("Budget", "p3", "insight")],
        (["18-29", "30-49"], "Both")⟩ : Response).age_distribution =
      (⟨(3, 1), [("EcoConscious", 2), ("Budget", 1)], ⟨1, 2, 0, 1⟩,
        [("EcoConscious", "p2", "insight"), ("Budget", "p3", "insight")],
        (["18-29", "30-49"], "Both")⟩ : Response).age_distribution :=
  aggregation_pure_function_of_decision_set (fun _ => 0) (fun _ => 1)
    scenarioCollabs scenarioCollabs "eco-friendly water bottle" "eco-friendly water bottle"
    ⟨["EcoConscious", "Budget"], ["18-29", "30-49"], "Both"⟩ ⟨scenarioDetails⟩
    scenarioClassified _ _ (by decide) (by decide) ⟨_, rfl⟩ ⟨_, rfl⟩ rfl rfl ⟨_, rfl⟩ ⟨_, rfl⟩
    rfl rfl (by decide) rfl rfl (by rfl) (by rfl)

/-- C10: the representative-selection and insight stages do not check
`assigned_archetype` against the declared labels: with labels `["A"]` and a
"yes" classification into the unrecognized archetype `"Zed"` (whose decision
record has a non-empty summary), `consumer_insights` has exactly the key
`"Zed"` while `yes_pie`'s keys are exactly `["A"]` — so a consumer-insights
key need not be a key of `yes_pie`. -/
theorem consumer_insights_key_outside_declared_labels :
    ((analyze_product (fun _ => 0) driftCollabs "widget").2.toOption.map
        (fun r => (r.consumer_insights.map Prod.fst, r.yes_pie.map Prod.fst))) =
      some (["Zed"], ["A"]) ∧ "Zed" ∉ (["A"] : List String) := by
  constructor
  · decide
  · decide
